import Mathlib

/-!
Verification of the ServerManager supervision engine.

Shallow embedding of the Python sources under `ServerManager/`:
`models.py` (ServerStatus, ServerConfig, ServerState), `worker.py`
(ServerWorker: state machine, metrics sampler, health checks),
`manager.py` (ServerManager fleet operations), `config.py`
(load_servers) and `metrics_db.py` (fetch_series).

Stateful methods become pure functions on explicit state records;
methods whose only side effects are SSH commands or logging keep the
state-relevant part only.  Events pushed to the UI queue (`_push_update`)
are returned as an explicit list.  Floating point times and percentages
are modelled by `Int` seconds and `Rat` respectively.
-/

namespace ServerManager

/-- `ServerStatus` from models.py. -/
inductive ServerStatus where
  | DISCONNECTED
  | CONNECTING
  | RUNNING
  | STOPPED
  | ERROR
  | EXTERNAL
deriving DecidableEq, Repr

/-- `ServerState` dataclass from models.py. -/
structure ServerState where
  status : ServerStatus
  pid : Option Nat
  uptime_seconds : Nat
  restarts_count : Nat
  last_restart_time : Option String
  last_error : Option String
  backoff_seconds : Nat
deriving DecidableEq, Repr

/-- The dataclass defaults of `ServerState`. -/
def ServerState.initial : ServerState :=
  { status := .DISCONNECTED
    pid := none
    uptime_seconds := 0
    restarts_count := 0
    last_restart_time := none
    last_error := none
    backoff_seconds := 5 }

/-- `ServerState.reset_backoff` from models.py. -/
def ServerState.reset_backoff (s : ServerState) : ServerState :=
  { s with backoff_seconds := 5 }

/-- `ServerState.increase_backoff` from models.py:
`self.backoff_seconds = min(self.backoff_seconds * 2, 60)`. -/
def ServerState.increase_backoff (s : ServerState) : ServerState :=
  { s with backoff_seconds := min (s.backoff_seconds * 2) 60 }

/-- `ServerWorker._update_state` from worker.py.  The Python signature is
`_update_state(status, pid=None, error=None)`; a `none` argument means
"leave the field unchanged".  After the optional field writes, a
`RUNNING` status clears `last_error`, and a `STOPPED` or `ERROR` status
clears `pid` and zeroes `uptime_seconds`. -/
def update_state (s : ServerState) (status : ServerStatus)
    (pid : Option Nat) (error : Option String) : ServerState :=
  let s1 : ServerState := { s with status := status }
  let s2 : ServerState :=
    match pid with
    | some p => { s1 with pid := some p }
    | none => s1
  let s3 : ServerState :=
    match error with
    | some e => { s2 with last_error := some e }
    | none => s2
  if status = .RUNNING then
    { s3 with last_error := none }
  else if status = .STOPPED ∨ status = .ERROR then
    { s3 with pid := none, uptime_seconds := 0 }
  else
    s3

/-- The `auth` dictionary carried by a server configuration
(`{"type": ..., "key_path": ..., "passphrase": ..., "password": ...}`).
The `type` key is modelled as an `Option` because raw JSON entries may
omit it (config.py checks `"type" in server_data["auth"]`). -/
structure RawAuth where
  authType : Option String
  key_path : Option String
  passphrase : Option String
  password : Option String
deriving DecidableEq, Repr

/-- `ServerConfig` dataclass from models.py (field order as in source).
`env` is a string-to-string mapping, modelled as an association list.
Percentage thresholds are `Rat`; durations and delays are `Int` seconds. -/
structure ServerConfig where
  name : String
  host : String
  port : Nat
  username : String
  auth : RawAuth
  command : String
  working_dir : String
  env : List (String × String)
  restart_delay_seconds : Nat
  enabled : Bool
  stop_command : String
  process_match_regex : Option String
  pre_command : String
  health_check_enabled : Bool
  health_check_cpu_enabled : Bool
  health_check_cpu_threshold : Rat
  health_check_cpu_duration : Int
  health_check_gpu_enabled : Bool
  health_check_gpu_threshold : Rat
  health_check_gpu_duration : Int
deriving DecidableEq, Repr

/-- Python `str.split()` with no argument: split on runs of whitespace,
discarding empty pieces. -/
def splitWs (s : String) : List String :=
  (s.split Char.isWhitespace).filter (fun p => p ≠ "")

/-- The character set escaped by `re.escape` (CPython ≥3.7 special
characters map). -/
def reSpecialChars : List Char :=
  ['(', ')', '[', ']', '\x7b', '\x7d', '?', '*', '+', '-', '|', '^', '$',
   '\\', '.', '&', '~', '#', ' ', '\t', '\n', '\r', '\x0b', '\x0c']

/-- `re.escape`: prefix every special character with a backslash. -/
def reEscape (s : String) : String :=
  String.join (s.toList.map (fun c =>
    if c ∈ reSpecialChars then String.mk ['\\', c] else String.mk [c]))

/-- `ServerConfig.__post_init__` from models.py: when
`process_match_regex` is unset (None or empty), derive it from the
command: the last whitespace-separated token if there are at least two,
else the whole command, regex-escaped. -/
def ServerConfig.postInit (c : ServerConfig) : ServerConfig :=
  let unset : Bool :=
    match c.process_match_regex with
    | none => true
    | some r => r = ""
  if unset then
    let cmd_parts := splitWs c.command
    if cmd_parts.length ≥ 2 then
      { c with process_match_regex := some (reEscape (cmd_parts.getLastD "")) }
    else
      { c with process_match_regex := some (reEscape c.command) }
  else
    c

/-- The messages `ServerWorker` puts on the UI queue (`_push_update`,
`_push_log_line`, `_maybe_sample_metrics` in worker.py). -/
inductive UiEvent where
  | state_update (server : String) (state : ServerState)
  | log_line (server line stream timestamp : String)
  | metrics_update (server : String)
      (cpu ram_used_mb ram_total_mb gpu_util gpu_mem_used_mb gpu_mem_total_mb :
        Option Rat)
deriving DecidableEq, Repr

/-- The state-relevant fields of a `ServerWorker` (worker.py `__init__`).
`sshConnected` stands for `self.ssh is not None and self.ssh.is_connected()`;
`channelOpen` for `self.channel` holding an open channel; `prev_cpu` for
the pair `(_prev_cpu_total, _prev_cpu_idle)`; `killsIssued` counts the
`ssh.kill_process` invocations (stop-command executions). -/
structure Worker where
  config : ServerConfig
  state : ServerState
  running : Bool
  manual_stop_requested : Bool
  sshConnected : Bool
  channelOpen : Bool
  process_start_time : Option Int
  prev_cpu : Option (Int × Int)
  cpu_below_threshold_start : Option Int
  gpu_below_threshold_start : Option Int
  killsIssued : Nat
deriving DecidableEq, Repr

/-- A freshly constructed worker (`ServerWorker.__init__`). -/
def Worker.init (cfg : ServerConfig) : Worker :=
  { config := cfg
    state := ServerState.initial
    running := false
    manual_stop_requested := false
    sshConnected := false
    channelOpen := false
    process_start_time := none
    prev_cpu := none
    cpu_below_threshold_start := none
    gpu_below_threshold_start := none
    killsIssued := 0 }

/-- `_update_state` at the worker level: update the state record and emit
the `state_update` event that `_push_update` puts on the UI queue. -/
def Worker.updateState (w : Worker) (status : ServerStatus)
    (pid : Option Nat) (error : Option String) : Worker × List UiEvent :=
  let s := update_state w.state status pid error
  ({ w with state := s }, [UiEvent.state_update w.config.name s])

/-- Environment for one `_start_process` attempt: the results of the
remote calls it makes.  `scriptMissing` is true when the command's last
token is a `.py` script that `verify_script_exists` reports absent;
`execOk`/`execErr` are the result of `ssh.exec_command`; `detectedPid`
the result of the post-start `detect_running_process` probe; `now` the
wall clock in seconds and `wall` its formatted form. -/
structure StartEnv where
  scriptMissing : Bool
  execOk : Bool
  execErr : String
  detectedPid : Option Nat
  now : Int
  wall : String
deriving DecidableEq, Repr

/-- `ServerWorker._start_process` from worker.py.  On success it opens
the channel, records the start time, increments `restarts_count`, sets
`last_restart_time`, transitions to RUNNING with the detected pid, and
resets the CPU baseline (`_prev_cpu_total = _prev_cpu_idle = None`). -/
def startProcess (w : Worker) (e : StartEnv) : Worker × List UiEvent :=
  if ¬ w.sshConnected then
    w.updateState .DISCONNECTED none (some "Not connected")
  else if e.scriptMissing then
    w.updateState .ERROR none (some "Script not found")
  else if ¬ e.execOk then
    w.updateState .ERROR none (some e.execErr)
  else
    let w1 : Worker := { w with
      channelOpen := true
      process_start_time := some e.now }
    let w2 : Worker := { w1 with
      state := { w1.state with
        restarts_count := w1.state.restarts_count + 1
        last_restart_time := some e.wall } }
    let (w3, t) := w2.updateState .RUNNING e.detectedPid none
    ({ w3 with prev_cpu := none }, t)

/-- The exit-status branch of `ServerWorker._handle_running`
(worker.py lines 225-237): on `exit_status_ready`, transition to STOPPED
when the exit code is 0 and to ERROR otherwise, with
`error = "Exited with code <N>"`, then close the channel. -/
def handleExit (w : Worker) (code : Int) : Worker × List UiEvent :=
  let status : ServerStatus := if code = 0 then .STOPPED else .ERROR
  let (w1, t) := w.updateState status none (some ("Exited with code " ++ toString code))
  ({ w1 with channelOpen := false }, t)

/-- `ServerWorker._handle_restart_delay` from worker.py: abort when the
worker is stopping or a manual stop was requested; otherwise, after the
delay, start the process if still connected, else go Disconnected. -/
def handleRestartDelay (w : Worker) (e : StartEnv) : Worker × List UiEvent :=
  if ¬ w.running ∨ w.manual_stop_requested then
    (w, [])
  else if w.sshConnected then
    startProcess w e
  else
    w.updateState .DISCONNECTED none (some "Connection lost, reconnecting...")

/-- `ServerWorker._handle_disconnected` from worker.py: emit CONNECTING,
sleep `backoff_seconds`, then attempt the SSH connection.  On success,
reset the backoff and either go EXTERNAL (detector found a pid) or run
`_start_process`.  On failure, record the error, stay DISCONNECTED and
double the backoff (capped at 60). -/
def handleDisconnected (w : Worker) (connectOk : Bool) (connectErr : String)
    (detected : Option Nat) (e : StartEnv) : Worker × List UiEvent :=
  let (w1, t1) := w.updateState .CONNECTING none none
  if connectOk then
    let w2 : Worker := { w1 with
      sshConnected := true
      state := w1.state.reset_backoff }
    match detected with
    | some pid =>
      let (w3, t3) := w2.updateState .EXTERNAL (some pid)
        (some "Process already running (not started by us)")
      (w3, t1 ++ t3)
    | none =>
      let (w3, t3) := startProcess w2 e
      (w3, t1 ++ t3)
  else
    let (w2, t2) := w1.updateState .DISCONNECTED none (some connectErr)
    let w3 : Worker := { w2 with
      sshConnected := false
      state := w2.state.increase_backoff }
    (w3, t1 ++ t2)

/-- `ServerWorker.stop_worker` from worker.py: clear `running`, set
`manual_stop_requested`, best-effort issue the stop command over the
existing session (only when connected), close the channel and the SSH
session, and set the state to STOPPED with error "Manually stopped". -/
def stopWorker (w : Worker) : Worker :=
  let w1 : Worker := { w with
    running := false
    manual_stop_requested := true
    killsIssued := w.killsIssued + (if w.sshConnected then 1 else 0)
    channelOpen := false
    sshConnected := false }
  { w1 with state := update_state w1.state .STOPPED none (some "Manually stopped") }

/-- `ServerWorker._trigger_health_restart` from worker.py: best-effort
kill of the current process, close the channel, reset both health-check
timers, and transition to STOPPED with `error = "Health check: <reason>"`. -/
def triggerHealthRestart (w : Worker) (reason : String) : Worker × List UiEvent :=
  let w1 : Worker := { w with
    killsIssued := w.killsIssued + (if w.sshConnected then 1 else 0)
    channelOpen := false
    cpu_below_threshold_start := none
    gpu_below_threshold_start := none }
  w1.updateState .STOPPED none (some ("Health check: " ++ reason))

/-- The GPU half of `ServerWorker._evaluate_health_checks`, reached when
the CPU half did not trigger a restart. -/
def gpuHealthStep (w : Worker) (gpu_util : Option Rat) (now : Int) :
    Worker × List UiEvent :=
  match gpu_util, w.config.health_check_gpu_enabled with
  | some g, true =>
    if g < w.config.health_check_gpu_threshold then
      match w.gpu_below_threshold_start with
      | none => ({ w with gpu_below_threshold_start := some now }, [])
      | some start =>
        if now - start ≥ w.config.health_check_gpu_duration then
          triggerHealthRestart w "GPU usage too low"
        else
          (w, [])
    else
      ({ w with gpu_below_threshold_start := none }, [])
  | _, _ => (w, [])

/-- `ServerWorker._evaluate_health_checks` from worker.py.  Disabled
checks do nothing; outside RUNNING both timers are reset.  While
RUNNING, a below-threshold CPU value starts (or continues) the CPU
timer; once the value has stayed below the threshold for at least
`health_check_cpu_duration` seconds, `_trigger_health_restart` fires and
the GPU half is skipped (the Python `return`).  A value at or above the
threshold clears the timer. -/
def evaluateHealthChecks (w : Worker) (cpu gpu_util : Option Rat) (now : Int) :
    Worker × List UiEvent :=
  if ¬ w.config.health_check_enabled then
    (w, [])
  else if w.state.status ≠ .RUNNING then
    ({ w with cpu_below_threshold_start := none, gpu_below_threshold_start := none }, [])
  else
    match cpu, w.config.health_check_cpu_enabled with
    | some c, true =>
      if c < w.config.health_check_cpu_threshold then
        match w.cpu_below_threshold_start with
        | none =>
          gpuHealthStep { w with cpu_below_threshold_start := some now } gpu_util now
        | some start =>
          if now - start ≥ w.config.health_check_cpu_duration then
            triggerHealthRestart w "CPU usage too low"
          else
            gpuHealthStep w gpu_util now
      else
        gpuHealthStep { w with cpu_below_threshold_start := none } gpu_util now
    | _, _ => gpuHealthStep w gpu_util now

/-- Parse of the first `/proc/stat` line inside `_sample_cpu`:
`parts = out.strip().split()`, require `parts[0] == 'cpu'`, and convert
the remaining tokens with `int` (any failure is caught and yields no
sample). -/
def parseStatNums (out : String) : Option (List Int) :=
  match splitWs out with
  | [] => none
  | p0 :: rest => if p0 = "cpu" then rest.mapM String.toInt? else none

/-- The numeric core of `ServerWorker._sample_cpu`: given the previous
`(total, idle)` baseline and the parsed jiffy counts, return the CPU
percentage (if computable) and the new baseline.  `total` is the sum of
all fields; `idle` is `nums[3] + nums[4]` (idle + iowait), the fifth
summand present only when more than four fields exist.  Fewer than four
fields raise `IndexError` in the source, which is caught, leaving the
baseline unchanged. -/
def cpuFromNums (prev : Option (Int × Int)) (nums : List Int) :
    Option Rat × Option (Int × Int) :=
  if 4 ≤ nums.length then
    let total : Int := nums.sum
    let idle : Int := nums.getD 3 0 + (if 4 < nums.length then nums.getD 4 0 else 0)
    match prev with
    | none => (none, some (total, idle))
    | some (prevTotal, prevIdle) =>
      let dtTotal := total - prevTotal
      let dtIdle := idle - prevIdle
      if dtTotal ≤ 0 then
        (none, some (total, idle))
      else
        let usage : Rat := 100 * (1 - (dtIdle : Rat) / (dtTotal : Rat))
        (some (max 0 (min 100 usage)), some (total, idle))
  else
    (none, prev)

/-- `ServerWorker._sample_cpu` from worker.py: `ok`/`out` are the result
of `run_simple("cat /proc/stat | head -n1")`; a failed or empty read, a
malformed line, or a missing baseline yield no sample. -/
def sampleCpu (prev : Option (Int × Int)) (ok : Bool) (out : String) :
    Option Rat × Option (Int × Int) :=
  if ¬ ok ∨ out = "" then
    (none, prev)
  else
    match parseStatNums out with
    | none => (none, prev)
    | some nums => cpuFromNums prev nums

/-- One producer enqueue on the UI queue.  `ServerManager.__init__`
creates `self.ui_queue = Queue()` — an unbounded FIFO — and
`ServerWorker._push_update` calls `self.ui_queue.put(...)`, which on an
unbounded queue appends without blocking and without dropping. -/
def busPush (q : List UiEvent) (e : UiEvent) : List UiEvent := q ++ [e]

/-- A sequence of producer enqueues before any consumer read. -/
def busPushAll (q : List UiEvent) (es : List UiEvent) : List UiEvent :=
  es.foldl busPush q

/-- A raw JSON server entry as read by `load_servers` in config.py:
every key may be absent. -/
structure RawServer where
  name : Option String
  host : Option String
  port : Option Nat
  username : Option String
  auth : Option RawAuth
  command : Option String
  working_dir : Option String
  env : Option (List (String × String))
  restart_delay_seconds : Option Nat
  enabled : Option Bool
  stop_command : Option String
  process_match_regex : Option String
  pre_command : Option String
  health_check_enabled : Option Bool
  health_check_cpu_enabled : Option Bool
  health_check_cpu_threshold : Option Rat
  health_check_cpu_duration : Option Int
  health_check_gpu_enabled : Option Bool
  health_check_gpu_threshold : Option Rat
  health_check_gpu_duration : Option Int
deriving DecidableEq, Repr

/-- The per-entry body of `load_servers` from config.py: apply the
`setdefault` block, then skip the entry unless all of
`name, host, port, username, auth` are present and `auth` has a `type`
key; otherwise build the `ServerConfig` (whose `__post_init__` derives
the process regex). -/
def loadServer (d : RawServer) : Option ServerConfig :=
  match d.name, d.host, d.port, d.username, d.auth with
  | some name, some host, some port, some username, some auth =>
    if auth.authType.isSome then
      some (ServerConfig.postInit
        { name := name
          host := host
          port := port
          username := username
          auth := auth
          command := d.command.getD "python3 /home/v13/ultra_aggressive_worker.py"
          working_dir := d.working_dir.getD "/home/v13"
          env := d.env.getD []
          restart_delay_seconds := d.restart_delay_seconds.getD 12
          enabled := d.enabled.getD true
          stop_command := d.stop_command.getD "pkill -f ultra_aggressive_worker.py"
          process_match_regex := d.process_match_regex
          pre_command := d.pre_command.getD ""
          health_check_enabled := d.health_check_enabled.getD false
          health_check_cpu_enabled := d.health_check_cpu_enabled.getD false
          health_check_cpu_threshold := d.health_check_cpu_threshold.getD 50
          health_check_cpu_duration := d.health_check_cpu_duration.getD 100
          health_check_gpu_enabled := d.health_check_gpu_enabled.getD false
          health_check_gpu_threshold := d.health_check_gpu_threshold.getD 50
          health_check_gpu_duration := d.health_check_gpu_duration.getD 100 })
    else
      none
  | _, _, _, _, _ => none

/-- `load_servers` from config.py: the valid entries, in order. -/
def loadServers (ds : List RawServer) : List ServerConfig :=
  ds.filterMap loadServer

/-- The marker that an entry was skipped (config.py prints a warning and
`continue`s). -/
def loadSkipped (d : RawServer) : Bool := (loadServer d).isNone

/-- The worker-creation loop of `ServerManager.load_configs`
(manager.py lines 29-33): for each loaded config whose name is not yet
in the worker map, create a `ServerWorker` for it. -/
def loadConfigs (configs : List ServerConfig) (ws : List (String × Worker)) :
    List (String × Worker) :=
  configs.foldl (fun acc config =>
    if acc.any (fun p => p.1 = config.name) then acc
    else acc ++ [(config.name, Worker.init config)]) ws

/-- The Fleet Manager's own data (`ServerManager.__init__`): the
configuration list and the name→worker mapping.  The Python dict is
modelled as an association list with unique keys in insertion order. -/
structure Fleet where
  configs : List ServerConfig
  workers : List (String × Worker)
deriving DecidableEq, Repr

/-- Python dict assignment `workers[name] = w`: overwrite in place when
the key exists, else append. -/
def workersInsert (ws : List (String × Worker)) (name : String) (w : Worker) :
    List (String × Worker) :=
  if ws.any (fun p => p.1 = name) then
    ws.map (fun p => if p.1 = name then (name, w) else p)
  else
    ws ++ [(name, w)]

/-- Python dict membership / indexing for the worker map. -/
def workersLookup (ws : List (String × Worker)) (name : String) : Option Worker :=
  (ws.find? (fun p => p.1 = name)).map Prod.snd

/-- `ServerManager.add_server` from manager.py: reject a duplicate name
(ValueError), else append the config, persist, and create a worker. -/
def addServer (f : Fleet) (cfg : ServerConfig) : Except String Fleet :=
  if f.configs.any (fun c => c.name = cfg.name) then
    .error ("Server with name " ++ cfg.name ++ " already exists")
  else
    .ok { configs := f.configs ++ [cfg]
          workers := workersInsert f.workers cfg.name (Worker.init cfg) }

/-- `ServerManager.delete_server` from manager.py: stop and discard the
worker under `name` (if any), then remove every config with that name
and persist. -/
def deleteServer (f : Fleet) (name : String) : Fleet :=
  { configs := f.configs.filter (fun c => c.name ≠ name)
    workers := (f.workers.map (fun p =>
      if p.1 = name then (p.1, stopWorker p.2) else p)).filter (fun p => p.1 ≠ name) }

/-- One row of the `metrics` table from metrics_db.py. -/
structure MetricRow where
  server : String
  ts : Int
  cpu : Option Rat
  ram_used_mb : Option Rat
  ram_total_mb : Option Rat
  gpu_util : Option Rat
  gpu_mem_used_mb : Option Rat
  gpu_mem_total_mb : Option Rat
deriving DecidableEq, Repr

/-- The field whitelist asserted by `fetch_series`. -/
def allowedFields : List String := ["cpu", "gpu_util", "ram_used_mb", "gpu_mem_used_mb"]

/-- Column access by name on a metrics row (the interpolated column of
the `SELECT ts, {field}` statement). -/
def columnValue (r : MetricRow) (f : String) : Option Rat :=
  if f = "cpu" then r.cpu
  else if f = "ram_used_mb" then r.ram_used_mb
  else if f = "ram_total_mb" then r.ram_total_mb
  else if f = "gpu_util" then r.gpu_util
  else if f = "gpu_mem_used_mb" then r.gpu_mem_used_mb
  else if f = "gpu_mem_total_mb" then r.gpu_mem_total_mb
  else none

/-- `fetch_series` from metrics_db.py.  The `assert` raises
`AssertionError` (modelled as `Except.error`) unless the field is in the
whitelist; otherwise the rows of the given server from the last
`seconds` seconds whose column is non-null are returned as
`(ts, value)` pairs in ascending `ts` order. -/
def fetch_series (db : List MetricRow) (server : String) (f : String)
    (seconds : Int) (now : Int) : Except String (List (Int × Rat)) :=
  if f ∈ allowedFields then
    let since := now - seconds
    let rows := (db.filter (fun r =>
      decide (r.server = server) && decide (since ≤ r.ts) &&
        (columnValue r f).isSome)).mergeSort (fun a b => decide (a.ts ≤ b.ts))
    .ok (rows.filterMap (fun r => (columnValue r f).map (fun v => (r.ts, v))))
  else
    .error "AssertionError"

/-- A key-auth dictionary used by the concrete scenarios. -/
def baseAuth : RawAuth :=
  { authType := some "key"
    key_path := some "/root/.ssh/key"
    passphrase := none
    password := none }

/-- Host `h1` of the end-to-end scenarios: `restart_delay_seconds = 3`,
`stop_command = "true"`, CPU health check with threshold 50 and
duration 3 s. -/
def healthCfg : ServerConfig :=
  { name := "h1"
    host := "10.0.0.1"
    port := 22
    username := "root"
    auth := baseAuth
    command := "python3 worker.py"
    working_dir := "/home/v13"
    env := []
    restart_delay_seconds := 3
    enabled := true
    stop_command := "true"
    process_match_regex := some "worker\\.py"
    pre_command := ""
    health_check_enabled := true
    health_check_cpu_enabled := true
    health_check_cpu_threshold := 50
    health_check_cpu_duration := 3
    health_check_gpu_enabled := false
    health_check_gpu_threshold := 50
    health_check_gpu_duration := 100 }

/-- A worker of `healthCfg` in the middle of a RUNNING period (one start
so far, pid 1234, live session and channel, CPU baseline present). -/
def runningWorker : Worker :=
  { config := healthCfg
    state := { status := .RUNNING
               pid := some 1234
               uptime_seconds := 10
               restarts_count := 1
               last_restart_time := some "2026-01-01 00:00:00"
               last_error := none
               backoff_seconds := 5 }
    running := true
    manual_stop_requested := false
    sshConnected := true
    channelOpen := true
    process_start_time := some 0
    prev_cpu := some (1000, 500)
    cpu_below_threshold_start := none
    gpu_below_threshold_start := none
    killsIssued := 0 }

/-- Health-check samples of scenario 3: `cpu = 20` at `t = 0`. -/
def c3e1 : Worker × List UiEvent := evaluateHealthChecks runningWorker (some 20) none 0

/-- Scenario 3, second sample: `cpu = 25` at `t = 1`. -/
def c3e2 : Worker × List UiEvent := evaluateHealthChecks c3e1.1 (some 25) none 1

/-- Scenario 3, third sample: `cpu = 30` at `t = 2`. -/
def c3e3 : Worker × List UiEvent := evaluateHealthChecks c3e2.1 (some 30) none 2

/-- Scenario 3, a fourth below-threshold sample (`cpu = 28`) at `t = 3`,
three seconds after the first. -/
def c3e4 : Worker × List UiEvent := evaluateHealthChecks c3e3.1 (some 28) none 3

/-- The restart following the health-triggered stop of scenario 3. -/
def c3Restarted : Worker × List UiEvent :=
  handleRestartDelay c3e4.1
    { scriptMissing := false
      execOk := true
      execErr := ""
      detectedPid := some 5678
      now := 20
      wall := "2026-01-01 00:01:00" }

/-- Configuration of the crash-recovery scenario (health checks off). -/
def crashCfg : ServerConfig := { healthCfg with health_check_enabled := false }

/-- The crash-recovery worker right after `start_worker` set
`running = True` (state still the initial Disconnected one). -/
def c6w0 : Worker := { Worker.init crashCfg with running := true }

/-- Crash recovery, step 1: the disconnected handler connects
successfully, the detector finds nothing, and `_start_process` launches
the command, detecting pid 1234. -/
def c6s1 : Worker × List UiEvent :=
  handleDisconnected c6w0 true "" none
    { scriptMissing := false
      execOk := true
      execErr := ""
      detectedPid := some 1234
      now := 100
      wall := "2026-01-01 00:00:00" }

/-- Crash recovery, step 2: the channel reports exit code 9. -/
def c6s2 : Worker × List UiEvent := handleExit c6s1.1 9

/-- Crash recovery, step 3: the restart delay elapses and
`_start_process` relaunches, detecting pid 5678. -/
def c6s3 : Worker × List UiEvent :=
  handleRestartDelay c6s2.1
    { scriptMissing := false
      execOk := true
      execErr := ""
      detectedPid := some 5678
      now := 110
      wall := "2026-01-01 00:00:10" }

/-- All UI events of the crash-recovery scenario, in production order. -/
def c6trace : List UiEvent := c6s1.2 ++ c6s2.2 ++ c6s3.2

/-- The status carried by a `state_update` event. -/
def eventStatus (e : UiEvent) : Option ServerStatus :=
  match e with
  | .state_update _ s => some s.status
  | _ => none

/-- The backoff value used by the `(n+1)`-st connection attempt after
`n` consecutive failures from a fresh state: `n` applications of
`increase_backoff` to the initial state. -/
def backoffSeq (n : Nat) : Nat :=
  (ServerState.increase_backoff^[n] ServerState.initial).backoff_seconds

/-- The i-th event of the bus-overflow scenario. -/
def busEvent (i : Nat) : UiEvent :=
  .log_line "h1" ("line " ++ toString i) "stdout" "2026-01-01 00:00:00"

/-- A raw entry carrying every required field except `port`. -/
def rawNoPort : RawServer :=
  { name := some "server-1"
    host := some "10.0.0.1"
    port := none
    username := some "root"
    auth := some baseAuth
    command := none
    working_dir := none
    env := none
    restart_delay_seconds := none
    enabled := none
    stop_command := none
    process_match_regex := none
    pre_command := none
    health_check_enabled := none
    health_check_cpu_enabled := none
    health_check_cpu_threshold := none
    health_check_cpu_duration := none
    health_check_gpu_enabled := none
    health_check_gpu_threshold := none
    health_check_gpu_duration := none }

/-- A raw entry with exactly the required fields present. -/
def rawMinimal : RawServer := { rawNoPort with port := some 2222 }

/-- The configuration `load_servers` produces for `rawMinimal`. -/
def minimalLoaded : ServerConfig := (loadServer rawMinimal).getD healthCfg

/-- A small metrics table used by concrete queries. -/
def sampleDb : List MetricRow :=
  [{ server := "s", ts := 900, cpu := some 10, ram_used_mb := none,
     ram_total_mb := some 64000, gpu_util := none, gpu_mem_used_mb := none,
     gpu_mem_total_mb := none },
   { server := "s", ts := 950, cpu := some 20, ram_used_mb := none,
     ram_total_mb := some 64000, gpu_util := none, gpu_mem_used_mb := none,
     gpu_mem_total_mb := none }]

end ServerManager

namespace ServerManager

/-- C1 counterexample.  `_handle_disconnected` reaches
`_update_state(ServerStatus.EXTERNAL, pid=pid, error=...)` when the
process detector finds an already-running process (worker.py line 162);
the resulting state has `status = External ≠ Running` yet `pid ≠ none`,
falsifying the claimed invariant `status ≠ Running → pid = none`. -/
theorem external_state_keeps_pid :
    (update_state ServerState.initial .EXTERNAL (some 4711)
        (some "Process already running (not started by us)")).status ≠ .RUNNING ∧
    (update_state ServerState.initial .EXTERNAL (some 4711)
        (some "Process already running (not started by us)")).pid ≠ none := by
  decide

/-- C1 amended: the invariant holds with `status ≠ Running` weakened to
`status ∈ {Stopped, Error}`: every `_update_state` call whose status
argument is `STOPPED` or `ERROR` leaves `pid = none` and
`uptime_seconds = 0`, whatever the previous state and the `pid`/`error`
arguments; transitions to Disconnected, Connecting and External may
retain or set a pid. -/
theorem update_state_stopped_error_clears_pid (s : ServerState)
    (status : ServerStatus) (pid : Option Nat) (error : Option String)
    (h : status = .STOPPED ∨ status = .ERROR) :
    (update_state s status pid error).pid = none ∧
    (update_state s status pid error).uptime_seconds = 0 := by
  rcases h with h | h <;> subst h <;>
    cases pid <;> cases error <;> simp [update_state]

/-- Witness for `update_state_stopped_error_clears_pid` at a concrete
state carrying a pid and a nonzero uptime. -/
theorem update_state_stopped_error_clears_pid_witness :
    ((ServerStatus.STOPPED = ServerStatus.STOPPED ∨
        ServerStatus.STOPPED = ServerStatus.ERROR) ∧
      (update_state { ServerState.initial with pid := some 99, uptime_seconds := 7 }
          .STOPPED none (some "Exited with code 0")).pid = none ∧
      (update_state { ServerState.initial with pid := some 99, uptime_seconds := 7 }
          .STOPPED none (some "Exited with code 0")).uptime_seconds = 0) :=
  ⟨Or.inl rfl,
    update_state_stopped_error_clears_pid
      { ServerState.initial with pid := some 99, uptime_seconds := 7 }
      .STOPPED none (some "Exited with code 0") (Or.inl rfl)⟩

/-- C2 counterexample.  The UI queue is created as `Queue()` (unbounded,
manager.py line 17) and `_push_update` is a plain `put`: producing six
events before any read leaves all six on the queue, so the consumer does
not observe `[e3, e4, e5, e6]`. -/
theorem bus_six_events_not_dropped :
    busPushAll []
        [busEvent 1, busEvent 2, busEvent 3, busEvent 4, busEvent 5, busEvent 6] ≠
      [busEvent 3, busEvent 4, busEvent 5, busEvent 6] := by
  decide

/-- C2 amended: the event bus is an unbounded FIFO queue; producers
enqueue without blocking, no event is ever dropped, and a consumer that
reads after producers pushed `es` onto queue `q` observes `q ++ es` — in
particular all of e1…e6 in production order. -/
theorem bus_unbounded_fifo_order :
    (∀ (q es : List UiEvent), busPushAll q es = q ++ es) ∧
    busPushAll []
        [busEvent 1, busEvent 2, busEvent 3, busEvent 4, busEvent 5, busEvent 6] =
      [busEvent 1, busEvent 2, busEvent 3, busEvent 4, busEvent 5, busEvent 6] := by
  constructor
  · intro q es
    induction es generalizing q with
    | nil => simp [busPushAll]
    | cons e es ih =>
      show busPushAll (busPush q e) es = q ++ e :: es
      rw [ih]
      simp [busPush]
  · decide

/-- C3 counterexample.  With threshold 50 and duration 3 s, the samples
`cpu = 20, 25, 30` at `t = 0, 1, 2` do NOT trigger a restart at the
third sample: the elapsed time below threshold is then only 2 s, so the
worker is still RUNNING, no event was emitted, no kill was issued, and
the CPU timer still holds `t = 0`. -/
theorem health_check_three_samples_no_restart :
    c3e3.1.state.status = .RUNNING ∧
    c3e1.2 ++ c3e2.2 ++ c3e3.2 = [] ∧
    c3e3.1.state.last_error = none ∧
    c3e3.1.state.restarts_count = 1 ∧
    c3e3.1.killsIssued = 0 ∧
    c3e3.1.cpu_below_threshold_start = some 0 := by
  decide

/-- C3 amended: the restart triggers at the first below-threshold sample
taken at least `duration` seconds after the first below-threshold
sample — here the fourth 1-second-apart sample, at `t = 3`.  The state
then leaves Running with `last_error = "Health check: CPU usage too
low"`, both below-threshold timestamps are cleared, the stop command is
issued, and the subsequent restart increments `restarts_count` by
exactly 1. -/
theorem health_restart_after_duration_below_threshold :
    c3e3.1.state.status = .RUNNING ∧
    c3e4.1.state.status = .STOPPED ∧
    c3e4.1.state.last_error = some "Health check: CPU usage too low" ∧
    c3e4.1.state.pid = none ∧
    c3e4.1.cpu_below_threshold_start = none ∧
    c3e4.1.gpu_below_threshold_start = none ∧
    c3e4.1.killsIssued = 1 ∧
    c3Restarted.1.state.status = .RUNNING ∧
    c3Restarted.1.state.restarts_count = runningWorker.state.restarts_count + 1 := by
  decide

/-- Unfolding of one `increase_backoff` step of the reconnect sequence. -/
theorem backoffSeq_succ (n : Nat) : backoffSeq (n + 1) = min (backoffSeq n * 2) 60 := by
  unfold backoffSeq
  rw [Function.iterate_succ_apply']
  rfl

/-- C4: from a fresh Disconnected state the successive attempt backoffs
are 5, 10, 20, 40, 60, 60, … (each failure doubles `backoff_seconds`
capped at 60, and from the fifth attempt on the value stays 60); a
successful connection resets the backoff to 5, and a failed
`_handle_disconnected` pass multiplies it by two capped at 60. -/
theorem backoff_doubling_capped :
    ((List.range 6).map backoffSeq = [5, 10, 20, 40, 60, 60]) ∧
    (∀ n : Nat, 4 ≤ n → backoffSeq n = 60) ∧
    (∀ s : ServerState, s.reset_backoff.backoff_seconds = 5) ∧
    (∀ (w : Worker) (cErr : String) (d : Option Nat) (e : StartEnv),
      ((handleDisconnected w true cErr d e).1).state.backoff_seconds = 5) ∧
    (∀ (w : Worker) (cErr : String) (d : Option Nat) (e : StartEnv),
      ((handleDisconnected w false cErr d e).1).state.backoff_seconds =
        min (w.state.backoff_seconds * 2) 60) := by
  refine ⟨by decide, ?_, fun s => rfl, ?_, ?_⟩
  · intro n hn
    obtain ⟨k, rfl⟩ := Nat.exists_eq_add_of_le hn
    induction k with
    | zero => decide
    | succ k ih =>
      rw [show 4 + (k + 1) = (4 + k) + 1 from rfl, backoffSeq_succ,
        ih (Nat.le_add_right 4 k)]
      decide
  · intro w cErr d e
    obtain ⟨sm, eo, ee, dp, n, wl⟩ := e
    cases d <;> cases dp <;>
      simp [handleDisconnected, startProcess, Worker.updateState, update_state,
        ServerState.reset_backoff] <;>
      split_ifs <;>
      rfl
  · intro w cErr d e
    simp [handleDisconnected, Worker.updateState, update_state,
      ServerState.increase_backoff]

/-- Witness for `backoff_doubling_capped` at attempt 9. -/
theorem backoff_doubling_capped_witness : 4 ≤ 9 ∧ backoffSeq 9 = 60 :=
  ⟨by decide, backoff_doubling_capped.2.1 9 (by decide)⟩

/-- The `__post_init__` regex derivation touches no field except
`process_match_regex`. -/
theorem postInit_preserves (c : ServerConfig) :
    c.postInit.port = c.port ∧
    c.postInit.restart_delay_seconds = c.restart_delay_seconds ∧
    c.postInit.enabled = c.enabled ∧
    c.postInit.env = c.env ∧
    c.postInit.pre_command = c.pre_command ∧
    c.postInit.health_check_enabled = c.health_check_enabled ∧
    c.postInit.health_check_cpu_enabled = c.health_check_cpu_enabled ∧
    c.postInit.health_check_cpu_threshold = c.health_check_cpu_threshold ∧
    c.postInit.health_check_cpu_duration = c.health_check_cpu_duration ∧
    c.postInit.health_check_gpu_enabled = c.health_check_gpu_enabled ∧
    c.postInit.health_check_gpu_threshold = c.health_check_gpu_threshold ∧
    c.postInit.health_check_gpu_duration = c.health_check_gpu_duration := by
  simp only [ServerConfig.postInit]
  split_ifs <;> simp

/-- C5 counterexample.  An entry with every required field except `port`
is skipped by `load_servers` — `port` is in the required-field list
(config.py line 70) and is never defaulted to 22, so no configuration at
all results from it. -/
theorem load_skips_entry_missing_port :
    loadServers [rawNoPort] = [] := by
  decide

/-- A name is found in the worker map exactly when some entry carries
it. -/
theorem workersLookup_isSome (ws : List (String × Worker)) (name : String) :
    (workersLookup ws name).isSome = ws.any (fun p => p.1 = name) := by
  induction ws with
  | nil => rfl
  | cons p ws ih =>
    rw [workersLookup, List.find?_cons] at *
    by_cases h : p.1 = name <;> simp [h]
    simpa [workersLookup] using ih

/-- The worker-creation loop registers exactly the names already present
plus the names of the given configs. -/
theorem loadConfigs_lookup (cs : List ServerConfig) (ws : List (String × Worker))
    (name : String) :
    (workersLookup (loadConfigs cs ws) name).isSome =
      (ws.any (fun p => p.1 = name) || cs.any (fun c => c.name = name)) := by
  induction cs generalizing ws with
  | nil => simp [loadConfigs, workersLookup_isSome]
  | cons c cs ih =>
    show (workersLookup (loadConfigs cs
      (if ws.any (fun p => p.1 = c.name) then ws
       else ws ++ [(c.name, Worker.init c)])) name).isSome = _
    rw [ih]
    by_cases hws : ws.any (fun p => p.1 = c.name) = true
    · rw [if_pos hws]
      by_cases hn : c.name = name
      · subst hn
        simp [hws]
      · simp [hn]
    · rw [if_neg hws]
      by_cases hn : c.name = name <;>
        simp [List.any_append, hn, Bool.or_assoc, Bool.or_comm, Bool.or_left_comm]

/-- C5 amended: `load` fills defaults for the omitted optional fields
(`restart_delay_seconds = 12`, `enabled = true`, `env = {}`,
`pre_command = ""`, health-check fields disabled with threshold 50.0 and
duration 100) and skips any entry missing one of name, host, port,
username, or auth.type, keeping only the valid entries; `port` itself is
required, never defaulted: a loaded config's port is always the entry's
own. -/
theorem load_fills_defaults_and_skips_invalid :
    (∀ d : RawServer,
      (loadServer d).isSome =
        (d.name.isSome && d.host.isSome && d.port.isSome && d.username.isSome &&
          (match d.auth with
           | some a => a.authType.isSome
           | none => false))) ∧
    (∀ (d : RawServer) (c : ServerConfig), loadServer d = some c →
      some c.port = d.port ∧
      c.restart_delay_seconds = d.restart_delay_seconds.getD 12 ∧
      c.enabled = d.enabled.getD true ∧
      c.env = d.env.getD [] ∧
      c.pre_command = d.pre_command.getD "" ∧
      c.health_check_enabled = d.health_check_enabled.getD false ∧
      c.health_check_cpu_enabled = d.health_check_cpu_enabled.getD false ∧
      c.health_check_cpu_threshold = d.health_check_cpu_threshold.getD 50 ∧
      c.health_check_cpu_duration = d.health_check_cpu_duration.getD 100 ∧
      c.health_check_gpu_enabled = d.health_check_gpu_enabled.getD false ∧
      c.health_check_gpu_threshold = d.health_check_gpu_threshold.getD 50 ∧
      c.health_check_gpu_duration = d.health_check_gpu_duration.getD 100) ∧
    (∀ ds : List RawServer, loadServers ds = ds.filterMap loadServer) ∧
    (∀ (ds : List RawServer) (name : String),
      (workersLookup (loadConfigs (loadServers ds) []) name).isSome =
        (loadServers ds).any (fun c => c.name = name)) := by
  refine ⟨?_, ?_, fun ds => rfl, fun ds name => by
    rw [loadConfigs_lookup]
    rfl⟩
  · intro d
    obtain ⟨name, host, port, username, auth, rest⟩ := d
    cases name <;> cases host <;> cases port <;> cases username <;> cases auth <;>
      simp [loadServer]
    case some.some.some.some.some a =>
      cases h : a.authType <;> simp [h]
  · intro d c h
    obtain ⟨name, host, port, username, auth, rest⟩ := d
    cases name <;> cases host <;> cases port <;> cases username <;> cases auth <;>
      simp [loadServer] at h
    case some.some.some.some.some a =>
      rcases ht : a.authType with _ | t
      · rw [ht] at h
        simp at h
      · rw [ht] at h
        simp at h
        subst h
        exact ⟨congrArg some (postInit_preserves _).1, (postInit_preserves _).2.1,
          (postInit_preserves _).2.2.1, (postInit_preserves _).2.2.2.1,
          (postInit_preserves _).2.2.2.2.1, (postInit_preserves _).2.2.2.2.2.1,
          (postInit_preserves _).2.2.2.2.2.2.1,
          (postInit_preserves _).2.2.2.2.2.2.2.1,
          (postInit_preserves _).2.2.2.2.2.2.2.2.1,
          (postInit_preserves _).2.2.2.2.2.2.2.2.2.1,
          (postInit_preserves _).2.2.2.2.2.2.2.2.2.2.1,
          (postInit_preserves _).2.2.2.2.2.2.2.2.2.2.2⟩

/-- Witness for `load_fills_defaults_and_skips_invalid` at the minimal
valid entry (only required fields present): the loaded config keeps the
entry's port 2222 and carries every default. -/
theorem load_fills_defaults_witness :
    loadServer rawMinimal = some minimalLoaded ∧
    (some minimalLoaded.port = rawMinimal.port ∧
      minimalLoaded.restart_delay_seconds = rawMinimal.restart_delay_seconds.getD 12 ∧
      minimalLoaded.enabled = rawMinimal.enabled.getD true ∧
      minimalLoaded.env = rawMinimal.env.getD [] ∧
      minimalLoaded.pre_command = rawMinimal.pre_command.getD "" ∧
      minimalLoaded.health_check_enabled = rawMinimal.health_check_enabled.getD false ∧
      minimalLoaded.health_check_cpu_enabled =
        rawMinimal.health_check_cpu_enabled.getD false ∧
      minimalLoaded.health_check_cpu_threshold =
        rawMinimal.health_check_cpu_threshold.getD 50 ∧
      minimalLoaded.health_check_cpu_duration =
        rawMinimal.health_check_cpu_duration.getD 100 ∧
      minimalLoaded.health_check_gpu_enabled =
        rawMinimal.health_check_gpu_enabled.getD false ∧
      minimalLoaded.health_check_gpu_threshold =
        rawMinimal.health_check_gpu_threshold.getD 50 ∧
      minimalLoaded.health_check_gpu_duration =
        rawMinimal.health_check_gpu_duration.getD 100) :=
  ⟨rfl,
    load_fills_defaults_and_skips_invalid.2.1 rawMinimal minimalLoaded rfl⟩

/-- C6: when the channel reports an exit status, the worker transitions
to STOPPED on exit code 0 and to ERROR otherwise, in both cases with
`last_error = "Exited with code <N>"`, `pid` cleared and uptime zeroed;
and in the crash-recovery scenario (exit code 9 while running under
pid 1234) the state-update sequence is Disconnected, Connecting,
Running, Error(`last_error = "Exited with code 9"`), Running with
`restarts_count = 2` and the new pid. -/
theorem exit_code_transition_and_crash_recovery :
    (∀ (w : Worker) (code : Int),
      ((handleExit w code).1).state.status =
          (if code = 0 then ServerStatus.STOPPED else ServerStatus.ERROR) ∧
        ((handleExit w code).1).state.pid = none ∧
        ((handleExit w code).1).state.uptime_seconds = 0 ∧
        ((handleExit w code).1).state.last_error =
          some ("Exited with code " ++ toString code)) ∧
    (c6w0.state.status = .DISCONNECTED ∧
      c6trace.filterMap eventStatus = [.CONNECTING, .RUNNING, .ERROR, .RUNNING] ∧
      c6s1.1.state.pid = some 1234 ∧
      c6s2.1.state.last_error = some "Exited with code 9" ∧
      c6s2.1.state.pid = none ∧
      c6s3.1.state.status = .RUNNING ∧
      c6s3.1.state.pid = some 5678 ∧
      c6s3.1.state.restarts_count = 2) := by
  constructor
  · intro w code
    by_cases hc : code = 0 <;>
      simp [handleExit, Worker.updateState, update_state, hc]
  · decide

/-- C7: the CPU sampler yields no value whenever there is no previous
baseline (which is the case for the first reading of a fresh worker and
right after every successful `_start_process`, since both leave
`_prev_cpu_total = None`); with a baseline, a jiffy delta
`Δtotal ≤ 0` also yields no value, and `Δtotal > 0` yields
`100 * (1 − Δidle/Δtotal)` clamped to [0, 100], where `total` sums every
field of the `cpu` line and `idle` sums its 4th and 5th numeric fields
(idle + iowait). -/
theorem cpu_sampler_baseline_delta_clamp :
    (∀ (ok : Bool) (out : String), (sampleCpu none ok out).1 = none) ∧
    (∀ (w : Worker) (e : StartEnv), w.sshConnected = true →
      e.scriptMissing = false → e.execOk = true →
      ((startProcess w e).1).prev_cpu = none) ∧
    (∀ (prevTotal prevIdle : Int) (nums : List Int), 4 ≤ nums.length →
      nums.sum - prevTotal ≤ 0 →
      (cpuFromNums (some (prevTotal, prevIdle)) nums).1 = none) ∧
    (∀ (prevTotal prevIdle : Int) (nums : List Int), 4 ≤ nums.length →
      0 < nums.sum - prevTotal →
      (cpuFromNums (some (prevTotal, prevIdle)) nums).1 =
        some (max 0 (min 100
          (100 * (1 -
            (((nums.getD 3 0 + (if 4 < nums.length then nums.getD 4 0 else 0)) -
                prevIdle : Int) : Rat) /
              ((nums.sum - prevTotal : Int) : Rat)))))) := by
  refine ⟨?_, ?_, ?_, ?_⟩
  · intro ok out
    unfold sampleCpu
    split
    · rfl
    · cases parseStatNums out with
      | none => rfl
      | some nums =>
        show (cpuFromNums none nums).1 = none
        unfold cpuFromNums
        split <;> rfl
  · intro w e hssh hsm hex
    simp [startProcess, hssh, hsm, hex, Worker.updateState]
  · intro prevTotal prevIdle nums hlen hle
    unfold cpuFromNums
    rw [if_pos hlen]
    simp only
    rw [if_pos hle]
  · intro prevTotal prevIdle nums hlen hpos
    unfold cpuFromNums
    rw [if_pos hlen]
    simp only
    rw [if_neg (not_le.mpr hpos)]

/-- Witness for `cpu_sampler_baseline_delta_clamp`: with baseline
`(0, 0)` and jiffy counts `[4, 1, 0, 5, 0]` (total 10, idle 5) the
sampler reports 50 %. -/
theorem cpu_sampler_baseline_delta_clamp_witness :
    (4 ≤ ([4, 1, 0, 5, 0] : List Int).length ∧
      0 < ([4, 1, 0, 5, 0] : List Int).sum - 0) ∧
    (cpuFromNums (some (0, 0)) [4, 1, 0, 5, 0]).1 = some 50 := by
  refine ⟨⟨by decide, by decide⟩, ?_⟩
  rw [cpu_sampler_baseline_delta_clamp.2.2.2 0 0 [4, 1, 0, 5, 0]
    (by decide) (by decide)]
  norm_num [List.getD, List.sum]

/-- C8: `stop_worker` sets `manual_stop_requested`, issues the stop
command exactly when a session is connected, closes the channel and the
session, and sets the state to Stopped with reason "Manually stopped"
and no pid; a second `stop_worker` is the identity on the result, so
`stop(); stop()` equals a single `stop()`. -/
theorem stop_worker_idempotent (w : Worker) :
    stopWorker (stopWorker w) = stopWorker w ∧
    (stopWorker w).manual_stop_requested = true ∧
    (stopWorker w).running = false ∧
    (stopWorker w).state.status = .STOPPED ∧
    (stopWorker w).state.last_error = some "Manually stopped" ∧
    (stopWorker w).state.pid = none ∧
    (stopWorker w).state.uptime_seconds = 0 ∧
    (stopWorker w).channelOpen = false ∧
    (stopWorker w).sshConnected = false ∧
    (stopWorker w).killsIssued =
      w.killsIssued + (if w.sshConnected then 1 else 0) := by
  cases w
  simp [stopWorker, update_state]

/-- Lists whose elements all satisfy `p` are unchanged by `filter p`. -/
theorem list_filter_id {α : Type} (l : List α) (p : α → Bool)
    (h : ∀ a ∈ l, p a = true) : l.filter p = l := by
  induction l with
  | nil => rfl
  | cons a l ih =>
    rw [List.filter_cons, if_pos (h a (List.mem_cons_self a l))]
    rw [ih (fun b hb => h b (List.mem_cons_of_mem a hb))]

/-- Lists on which `g` is pointwise the identity are unchanged by
`map g`. -/
theorem list_map_id {α : Type} (l : List α) (g : α → α)
    (h : ∀ a ∈ l, g a = a) : l.map g = l := by
  induction l with
  | nil => rfl
  | cons a l ih =>
    rw [List.map_cons, h a (List.mem_cons_self a l),
      ih (fun b hb => h b (List.mem_cons_of_mem a hb))]

/-- C9: for a fleet not already containing `cfg.name` (neither in the
configuration list nor in the worker map), `add_server` succeeds and a
following `delete_server cfg.name` restores the fleet: the configuration
list equals the original one, the worker map equals the original one,
and in particular no Supervisor for `cfg.name` remains. -/
theorem add_then_delete_restores_fleet (f : Fleet) (cfg : ServerConfig)
    (hc : ∀ c ∈ f.configs, c.name ≠ cfg.name)
    (hw : ∀ p ∈ f.workers, p.1 ≠ cfg.name) :
    ∃ f1, addServer f cfg = Except.ok f1 ∧
      (deleteServer f1 cfg.name).configs = f.configs ∧
      (deleteServer f1 cfg.name).workers = f.workers ∧
      workersLookup (deleteServer f1 cfg.name).workers cfg.name = none := by
  have hany : f.configs.any (fun c => c.name = cfg.name) = false := by
    rw [List.any_eq_false]
    intro c hcmem
    simpa using hc c hcmem
  have hwany : f.workers.any (fun p => p.1 = cfg.name) = false := by
    rw [List.any_eq_false]
    intro p hpmem
    simpa using hw p hpmem
  have hconfigs :
      (f.configs ++ [cfg]).filter (fun c => c.name ≠ cfg.name) = f.configs := by
    rw [List.filter_append,
      list_filter_id f.configs _ (fun c hcmem => by simpa using hc c hcmem)]
    simp
  have hworkers :
      ((f.workers ++ [(cfg.name, Worker.init cfg)]).map (fun p =>
        if p.1 = cfg.name then (p.1, stopWorker p.2) else p)).filter
        (fun p => p.1 ≠ cfg.name) = f.workers := by
    rw [List.map_append,
      list_map_id f.workers _ (fun p hpmem => by simp [hw p hpmem]),
      List.filter_append,
      list_filter_id f.workers _ (fun p hpmem => by simpa using hw p hpmem)]
    simp
  have hlookup : workersLookup f.workers cfg.name = none := by
    unfold workersLookup
    rw [List.find?_eq_none.mpr]
    · rfl
    · intro p hpmem
      simpa using hw p hpmem
  refine ⟨{ configs := f.configs ++ [cfg]
            workers := f.workers ++ [(cfg.name, Worker.init cfg)] }, ?_, ?_, ?_, ?_⟩
  · simp [addServer, hany, workersInsert, hwany]
  · exact hconfigs
  · exact hworkers
  · show workersLookup (((f.workers ++ [(cfg.name, Worker.init cfg)]).map (fun p =>
        if p.1 = cfg.name then (p.1, stopWorker p.2) else p)).filter
        (fun p => p.1 ≠ cfg.name)) cfg.name = none
    rw [hworkers]
    exact hlookup

/-- Witness for `add_then_delete_restores_fleet` at the empty fleet and
the scenario configuration. -/
theorem add_then_delete_restores_fleet_witness :
    ((∀ c ∈ (⟨[], []⟩ : Fleet).configs, c.name ≠ healthCfg.name) ∧
      (∀ p ∈ (⟨[], []⟩ : Fleet).workers, p.1 ≠ healthCfg.name)) ∧
    ∃ f1, addServer ⟨[], []⟩ healthCfg = Except.ok f1 ∧
      (deleteServer f1 healthCfg.name).configs = (⟨[], []⟩ : Fleet).configs ∧
      (deleteServer f1 healthCfg.name).workers = (⟨[], []⟩ : Fleet).workers ∧
      workersLookup (deleteServer f1 healthCfg.name).workers healthCfg.name = none :=
  ⟨⟨by simp, by simp⟩,
    add_then_delete_restores_fleet ⟨[], []⟩ healthCfg (by simp) (by simp)⟩

/-- C10: `fetch_series` returns a list of `(timestamp, value)` pairs for
every field in the whitelist {cpu, gpu_util, ram_used_mb,
gpu_mem_used_mb}, and raises `AssertionError` for every other field
name — in particular for the stored columns `ram_total_mb` and
`gpu_mem_total_mb`. -/
theorem fetch_series_field_guard :
    (∀ (db : List MetricRow) (server f : String) (seconds now : Int),
      f ∈ allowedFields →
      ∃ rows, fetch_series db server f seconds now = Except.ok rows) ∧
    (∀ (db : List MetricRow) (server f : String) (seconds now : Int),
      f ∉ allowedFields →
      fetch_series db server f seconds now = Except.error "AssertionError") ∧
    (∀ (db : List MetricRow) (server : String) (seconds now : Int),
      fetch_series db server "ram_total_mb" seconds now =
          Except.error "AssertionError" ∧
        fetch_series db server "gpu_mem_total_mb" seconds now =
          Except.error "AssertionError") := by
  refine ⟨?_, ?_, ?_⟩
  · intro db server f seconds now hf
    exact ⟨_, by rw [fetch_series, if_pos hf]⟩
  · intro db server f seconds now hf
    rw [fetch_series, if_neg hf]
  · intro db server seconds now
    constructor
    · rw [fetch_series, if_neg (by decide)]
    · rw [fetch_series, if_neg (by decide)]

/-- Witness for `fetch_series_field_guard`: querying `cpu` on the sample
table succeeds. -/
theorem fetch_series_field_guard_witness :
    ("cpu" ∈ allowedFields) ∧
    ∃ rows, fetch_series sampleDb "s" "cpu" 300 1000 = Except.ok rows :=
  ⟨by decide, fetch_series_field_guard.1 sampleDb "s" "cpu" 300 1000 (by decide)⟩

end ServerManager
